import Mathlib

/-!
Shallow embedding of the recipe-reader single-page application
(`src/app/page.tsx`, component `RecipeTTSApp`).

The component's React state hooks become the fields of `AppState`; the
browser `localStorage` becomes `Store`; calls into the Web Speech API
(`speechSynthesis.cancel/speak/resume/pause`) are recorded as an ordered
list of `EngineCall`s emitted by each handler; the engine's lifecycle
callbacks (`onstart`, `onend`, `onerror`) are the functions `onStart`,
`onEnd`, `onError`.  `JSON.parse` of a stored string is modelled by an
explicit stored-value datatype (`absent` = key missing, `valid` = a
well-formed serialization, `corrupt` = a string on which `JSON.parse`
throws); `Date.now()` and `new Date().toISOString()` are supplied through
a `Clock` record.  Numeric speech parameters (JS numbers produced by the
bounded sliders) are modelled as rationals.
-/

set_option autoImplicit false

namespace RecipeReader

/-- A speech-synthesis voice as exposed by the Voice Catalog
(`SpeechSynthesisVoice`): a unique `name` and a `lang`. -/
structure Voice where
  name : String
  lang : String
deriving DecidableEq, Repr

/-- The `Recipe` interface of `page.tsx` (lines 15-20). -/
structure Recipe where
  id : String
  title : String
  content : String
  createdAt : String
deriving DecidableEq, Repr

/-- The `TTSSettings` interface of `page.tsx` (lines 22-27). -/
structure TTSSettings where
  rate : Rat
  pitch : Rat
  volume : Rat
  voice : String
deriving DecidableEq, Repr

/-- The `useState` initial value for `ttsSettings` (lines 38-43). -/
def defaultTTSSettings : TTSSettings :=
  { rate := 1, pitch := 1, volume := 1, voice := "" }

/-- A `SpeechSynthesisUtterance` after `startSpeech` has configured it
(lines 142-153): the text payload plus the rate/pitch/volume/voice
snapshot fixed at construction. -/
structure Utterance where
  text : String
  rate : Rat
  pitch : Rat
  volume : Rat
  voice : Option Voice
deriving DecidableEq, Repr

/-- The React state of the component: one field per `useState` hook that
the claims concern (the `showSettings` UI toggle is omitted). -/
structure AppState where
  recipe : String
  recipeTitle : String
  savedRecipes : List Recipe
  isPlaying : Bool
  isPaused : Bool
  currentUtterance : Option Utterance
  availableVoices : List Voice
  ttsSettings : TTSSettings
deriving DecidableEq, Repr

/-- The state after the first render: every hook at its initial value. -/
def initialState : AppState :=
  { recipe := ""
    recipeTitle := ""
    savedRecipes := []
    isPlaying := false
    isPaused := false
    currentUtterance := none
    availableVoices := []
    ttsSettings := defaultTTSSettings }

/-- The `localStorage` entry under key `savedRecipes`: missing, a string
that `JSON.parse` turns into a recipe list, or a string on which
`JSON.parse` throws. -/
inductive StoredRecipes where
  | absent
  | valid (l : List Recipe)
  | corrupt
deriving DecidableEq, Repr

/-- The `localStorage` entry under key `ttsSettings`: missing, a string
that `JSON.parse` turns into a settings record, or a string on which
`JSON.parse` throws. -/
inductive StoredSettings where
  | absent
  | valid (t : TTSSettings)
  | corrupt
deriving DecidableEq, Repr

/-- The persisted store: the two independent `localStorage` entries. -/
structure Store where
  savedRecipes : StoredRecipes
  ttsSettings : StoredSettings
deriving DecidableEq, Repr

/-- The exception `JSON.parse` throws on malformed input. -/
inductive ParseError where
  | parseFailure
deriving DecidableEq, Repr

/-- `JSON.parse` applied to the stored `savedRecipes` string: succeeds on
a well-formed serialization, throws on a corrupt one. -/
def parseStoredRecipes : StoredRecipes → Except ParseError (List Recipe)
  | .valid l => .ok l
  | _ => .error .parseFailure

/-- `JSON.parse` applied to the stored `ttsSettings` string. -/
def parseStoredSettings : StoredSettings → Except ParseError TTSSettings
  | .valid t => .ok t
  | _ => .error .parseFailure

/-- The mount `useEffect` body, lines 47-56: read `savedRecipes` and, if the
key is present (`if (saved)`), `JSON.parse` it into state; then the same for
`ttsSettings`.  Neither `JSON.parse` call is wrapped in a `try`/`catch`, so a
thrown parse exception propagates out of the effect (modelled by
`Except.error`). -/
def mountLoad (store : Store) (s : AppState) : Except ParseError AppState := do
  let s1 ← match store.savedRecipes with
    | .absent => pure s
    | sr => do
        let l ← parseStoredRecipes sr
        pure {s with savedRecipes := l}
  match store.ttsSettings with
    | .absent => pure s1
    | ss => do
        let t ← parseStoredSettings ss
        pure {s1 with ttsSettings := t}

/-- The `ttsSettings` half of the mount read on its own, as a fresh
Preferences Manager initialization: the hook starts from the default
record, then the stored value (when the key is present) replaces it. -/
def initSettings (store : Store) : Except ParseError TTSSettings :=
  match store.ttsSettings with
  | .absent => .ok defaultTTSSettings
  | ss => parseStoredSettings ss

/-- The `loadVoices` closure, lines 59-65.  `capturedVoice` is the value of
`ttsSettings.voice` seen by the closure: React closes the mount effect over
the first render's `ttsSettings` binding, so the guard `!ttsSettings.voice`
reads this captured value, not the current state. -/
def loadVoices (capturedVoice : String) (voices : List Voice) (s : AppState) :
    AppState :=
  let s1 := {s with availableVoices := voices}
  match voices with
  | [] => s1
  | v :: _ =>
      if capturedVoice = "" then
        {s1 with ttsSettings := {s1.ttsSettings with voice := v.name}}
      else s1

/-- `loadVoices` as wired by the component: the mount effect runs once with
the first render's `ttsSettings`, whose `voice` is the initial `""`, and
installs that same closure as the `onvoiceschanged` handler, so every later
catalog refresh still sees `capturedVoice = ""`. -/
def appLoadVoices (voices : List Voice) (s : AppState) : AppState :=
  loadVoices initialState.ttsSettings.voice voices s

/-- JavaScript `String.prototype.trim()`: strip whitespace from both ends
of the string.  (Defined over the character list so that it evaluates
inside the kernel; the source only ever tests trimmed strings for
emptiness.) -/
def jsTrim (s : String) : String :=
  ⟨((s.data.dropWhile Char.isWhitespace).reverse.dropWhile
      Char.isWhitespace).reverse⟩

/-- A call into the Web Speech API recorded in program order:
`speechSynthesis.cancel()`, `speechSynthesis.speak(u)`,
`speechSynthesis.resume()`, `speechSynthesis.pause()`. -/
inductive EngineCall where
  | cancel
  | speak (u : Utterance)
  | resume
  | enginePause
deriving DecidableEq, Repr

/-- The user-visible error raised by `startSpeech` on blank text
(the "No Content" toast, lines 124-128). -/
inductive StartError where
  | emptyContent
deriving DecidableEq, Repr

/-- The user-visible error raised by `saveRecipe` on blank title or
content (the "Error" toast, lines 78-82). -/
inductive SaveError where
  | validationError
deriving DecidableEq, Repr

/-- The utterance `startSpeech` constructs, lines 142-153: the current
editor text, the current settings snapshot, and the voice resolved by exact
name match against the current catalog (`availableVoices.find`); no match
leaves the engine default (`none`). -/
def mkUtterance (s : AppState) : Utterance :=
  { text := s.recipe
    rate := s.ttsSettings.rate
    pitch := s.ttsSettings.pitch
    volume := s.ttsSettings.volume
    voice := s.availableVoices.find? (fun v => v.name == s.ttsSettings.voice) }

/-- `startSpeech`, lines 122-179.  Returns the raised error (if any), the
state after the handler, and the engine calls issued in order.  Blank text:
toast and return (lines 123-130).  Paused with a current utterance:
`resume()` and flip the flags (lines 132-137).  Otherwise: `cancel()` any
current speech, construct and configure a fresh utterance, record it, and
`speak` it (lines 139-178). -/
def startSpeech (s : AppState) : Option StartError × AppState × List EngineCall :=
  if jsTrim s.recipe = "" then
    (some .emptyContent, s, [])
  else if s.isPaused && s.currentUtterance.isSome then
    (none, {s with isPaused := false, isPlaying := true}, [.resume])
  else
    let u := mkUtterance s
    (none, {s with currentUtterance := some u}, [.cancel, .speak u])

/-- `pauseSpeech`, lines 181-187: only when `isPlaying`, call
`speechSynthesis.pause()` and flip the flags; otherwise do nothing. -/
def pauseSpeech (s : AppState) : AppState × List EngineCall :=
  if s.isPlaying then
    ({s with isPlaying := false, isPaused := true}, [.enginePause])
  else
    (s, [])

/-- `stopSpeech`, lines 189-194: unconditionally `cancel()`, clear both
flags and the current utterance. -/
def stopSpeech (s : AppState) : AppState × List EngineCall :=
  ({s with isPlaying := false, isPaused := false, currentUtterance := none},
   [.cancel])

/-- The `utterance.onstart` callback, lines 155-158. -/
def onStart (s : AppState) : AppState :=
  {s with isPlaying := true, isPaused := false}

/-- The `utterance.onend` callback, lines 160-164. -/
def onEnd (s : AppState) : AppState :=
  {s with isPlaying := false, isPaused := false, currentUtterance := none}

/-- The `utterance.onerror` callback, lines 166-175 (the "Speech Error"
toast is a pure UI side effect and is not part of the state). -/
def onError (s : AppState) : AppState :=
  {s with isPlaying := false, isPaused := false, currentUtterance := none}

/-- The two clock reads `saveRecipe` performs: `Date.now()` (epoch
milliseconds) and `new Date().toISOString()`. -/
structure Clock where
  nowMs : Nat
  nowISO : String
deriving DecidableEq, Repr

/-- `saveRecipe`, lines 76-101.  Blank title or content after trimming:
toast the validation error and return with nothing changed.  Otherwise
build the new recipe with id `Date.now().toString()` and the ISO
timestamp, append it, and persist the full updated collection to the
store. -/
def saveRecipe (clock : Clock) (s : AppState) (store : Store) :
    Option SaveError × AppState × Store :=
  if jsTrim s.recipeTitle = "" ∨ jsTrim s.recipe = "" then
    (some .validationError, s, store)
  else
    let newRecipe : Recipe :=
      { id := toString clock.nowMs
        title := s.recipeTitle
        content := s.recipe
        createdAt := clock.nowISO }
    let updatedRecipes := s.savedRecipes ++ [newRecipe]
    (none, {s with savedRecipes := updatedRecipes},
     {store with savedRecipes := .valid updatedRecipes})

/-- The `setRate` setter (the rate slider's `onValueChange`, line 295). -/
def setRate (x : Rat) (t : TTSSettings) : TTSSettings := {t with rate := x}

/-- The `setPitch` setter (the pitch slider's `onValueChange`, line 308). -/
def setPitch (x : Rat) (t : TTSSettings) : TTSSettings := {t with pitch := x}

/-- The `setVolume` setter (the volume slider's `onValueChange`, line 321). -/
def setVolume (x : Rat) (t : TTSSettings) : TTSSettings := {t with volume := x}

/-- The `setVoice` setter (the voice picker's `onValueChange`, line 335). -/
def setVoice (v : String) (t : TTSSettings) : TTSSettings := {t with voice := v}

/-- The persist `useEffect`, lines 72-74: serialize the full current
settings record into the `ttsSettings` store entry. -/
def persistSettings (t : TTSSettings) (store : Store) : Store :=
  {store with ttsSettings := .valid t}

/-- One preference mutation step: apply a setter to the in-memory record,
then the `[ttsSettings]`-dependent effect persists the full new record
before any other handler can observe the store. -/
def applySetter (f : TTSSettings → TTSSettings) (t : TTSSettings)
    (store : Store) : TTSSettings × Store :=
  let t1 := f t
  (t1, persistSettings t1 store)

/-- An external event driving the component: editing the editor fields,
the three speech buttons, the three engine callbacks, and a Voice Catalog
refresh. -/
inductive Event where
  | setRecipeText (t : String)
  | setTitleText (t : String)
  | userStart
  | userPause
  | userStop
  | engOnStart
  | engOnEnd
  | engOnError
  | voicesChanged (vs : List Voice)
deriving Repr

/-- The component's reaction to one event (engine calls discarded: only
the resulting React state matters here). -/
def step (s : AppState) : Event → AppState
  | .setRecipeText t => {s with recipe := t}
  | .setTitleText t => {s with recipeTitle := t}
  | .userStart => (startSpeech s).2.1
  | .userPause => (pauseSpeech s).1
  | .userStop => (stopSpeech s).1
  | .engOnStart => onStart s
  | .engOnEnd => onEnd s
  | .engOnError => onError s
  | .voicesChanged vs => appLoadVoices vs s

/-- The state reached from the first render by a sequence of events. -/
def run (es : List Event) : AppState :=
  es.foldl step initialState

/-- The flag pair encodes one of the three spec states: `isPlaying` and
`isPaused` are not both true. -/
def flagsOK (s : AppState) : Prop :=
  s.isPlaying = false ∨ s.isPaused = false

/-! ## Theorems -/

/-- C1: When playback is started while an utterance is already active
(state `Playing`: `isPlaying` true, `isPaused` false) and the editor text
is non-blank, `startSpeech` takes the restart path: it issues exactly
`speechSynthesis.cancel()` followed by `speechSynthesis.speak` of the
newly constructed utterance, in that order, so the prior engine-level
utterance is cancelled before the new utterance's `start` event can fire
and no two utterances are ever simultaneously active. -/
theorem startSpeech_cancel_before_speak (s : AppState)
    (hp : s.isPlaying = true) (hq : s.isPaused = false)
    (ht : jsTrim s.recipe ≠ "") :
    (startSpeech s).2.2 = [.cancel, .speak (mkUtterance s)] ∧
    (startSpeech s).2.1.currentUtterance = some (mkUtterance s) := by
  simp [startSpeech, ht, hq]

/-- Concrete playing-state instance for `startSpeech_cancel_before_speak`. -/
def playingState : AppState :=
  { initialState with recipe := "Preheat oven to 350 degrees", isPlaying := true }

theorem startSpeech_cancel_before_speak_witness :
    playingState.isPlaying = true ∧ playingState.isPaused = false ∧
    jsTrim playingState.recipe ≠ "" ∧
    ((startSpeech playingState).2.2 =
        [.cancel, .speak (mkUtterance playingState)] ∧
      (startSpeech playingState).2.1.currentUtterance =
        some (mkUtterance playingState)) :=
  ⟨rfl, rfl, by decide,
   startSpeech_cancel_before_speak playingState rfl rfl (by decide)⟩

/-- A store whose `savedRecipes` entry is a corrupt string. -/
def corruptRecipesStore : Store :=
  { savedRecipes := .corrupt, ttsSettings := .absent }

/-- A store whose `ttsSettings` entry is a corrupt string. -/
def corruptSettingsStore : Store :=
  { savedRecipes := .absent, ttsSettings := .corrupt }

/-- C2: the claim fails on the code.  The mount effect calls `JSON.parse`
with no `try`/`catch`, so a corrupt `savedRecipes` or `ttsSettings` entry
makes initialization propagate the parse failure instead of falling back
to the empty collection / default preferences; only the absent case is
handled (by the `if (saved)` guards). -/
theorem mountLoad_corrupt_propagates :
    mountLoad corruptRecipesStore initialState = .error .parseFailure ∧
    mountLoad corruptSettingsStore initialState = .error .parseFailure ∧
    mountLoad { savedRecipes := .absent, ttsSettings := .absent }
        initialState = .ok initialState :=
  ⟨rfl, rfl, rfl⟩

/-- C4: saving with a title or content that is blank after trimming fails
with the validation error and leaves both the in-memory collection and
the persisted store exactly as they were. -/
theorem saveRecipe_blank_validationError (clock : Clock) (s : AppState)
    (store : Store)
    (h : jsTrim s.recipeTitle = "" ∨ jsTrim s.recipe = "") :
    saveRecipe clock s store = (some .validationError, s, store) := by
  simp [saveRecipe, h]

/-- Concrete blank-title instance for `saveRecipe_blank_validationError`. -/
def blankTitleState : AppState :=
  { initialState with recipeTitle := "   ", recipe := "Boil the water" }

theorem saveRecipe_blank_validationError_witness :
    (jsTrim blankTitleState.recipeTitle = "" ∨
      jsTrim blankTitleState.recipe = "") ∧
    saveRecipe { nowMs := 7, nowISO := "2026-10-11T12:00:00.000Z" }
        blankTitleState corruptRecipesStore =
      (some .validationError, blankTitleState, corruptRecipesStore) :=
  ⟨Or.inl (by decide),
   saveRecipe_blank_validationError
     { nowMs := 7, nowISO := "2026-10-11T12:00:00.000Z" }
     blankTitleState corruptRecipesStore (Or.inl (by decide))⟩

/-- C5: starting playback on blank or whitespace-only editor text fails
with `EmptyContent`, changes nothing (same state, no utterance
constructed, no engine call issued), and in particular from `Idle` the
state remains `Idle`. -/
theorem startSpeech_blank_emptyContent (s : AppState)
    (h : jsTrim s.recipe = "") :
    startSpeech s = (some .emptyContent, s, []) ∧
    (s.isPlaying = false → s.isPaused = false →
      (startSpeech s).2.1.isPlaying = false ∧
      (startSpeech s).2.1.isPaused = false ∧
      (startSpeech s).2.1.currentUtterance = s.currentUtterance) := by
  have h1 : startSpeech s = (some .emptyContent, s, []) := by
    simp [startSpeech, h]
  exact ⟨h1, fun hp hq => by rw [h1]; exact ⟨hp, hq, rfl⟩⟩

theorem startSpeech_blank_emptyContent_witness :
    jsTrim initialState.recipe = "" ∧
    (startSpeech initialState = (some .emptyContent, initialState, []) ∧
      (initialState.isPlaying = false → initialState.isPaused = false →
        (startSpeech initialState).2.1.isPlaying = false ∧
        (startSpeech initialState).2.1.isPaused = false ∧
        (startSpeech initialState).2.1.currentUtterance =
          initialState.currentUtterance)) :=
  ⟨rfl, startSpeech_blank_emptyContent initialState rfl⟩

/-- A paused session whose editor text was cleared while paused. -/
def pausedBlankState : AppState :=
  { initialState with
      isPaused := true
      currentUtterance := some
        { text := "Old recipe text", rate := 1, pitch := 1, volume := 1,
          voice := none } }

/-- C6 counterexample: the state is `Paused` and a paused utterance
exists, yet invoking start does not resume — the blank-text check runs
first, so `startSpeech` raises `EmptyContent`, issues no engine call, and
the state stays `Paused` instead of transitioning to `Playing`. -/
theorem startSpeech_paused_blank_not_resumed :
    pausedBlankState.isPaused = true ∧
    pausedBlankState.currentUtterance.isSome = true ∧
    startSpeech pausedBlankState = (some .emptyContent, pausedBlankState, []) :=
  ⟨rfl, rfl, rfl⟩

/-- C6 (amended): whenever the state is `Paused`, a paused utterance
exists, and the editor text is non-blank after trimming, start resumes
that same utterance (only `speechSynthesis.resume()` is issued, no new
utterance is constructed), the state becomes `Playing`, and the current
utterance is unchanged — so preference changes made while paused are not
applied to it (settings stay fixed at construction time). -/
theorem startSpeech_paused_resumes (s : AppState) (u : Utterance)
    (hp : s.isPaused = true) (hu : s.currentUtterance = some u)
    (ht : jsTrim s.recipe ≠ "") :
    startSpeech s =
      (none, {s with isPaused := false, isPlaying := true}, [.resume]) ∧
    (startSpeech s).2.1.currentUtterance = some u ∧
    (startSpeech s).2.1.isPlaying = true ∧
    (startSpeech s).2.1.isPaused = false := by
  have h1 : startSpeech s =
      (none, {s with isPaused := false, isPlaying := true}, [.resume]) := by
    simp [startSpeech, ht, hp, hu]
  refine ⟨h1, ?_, ?_, ?_⟩ <;> rw [h1]
  exact hu

/-- A paused session with non-blank editor text and stale settings on
the paused utterance (rate 2 in the record, rate 1 on the utterance). -/
def pausedState : AppState :=
  { initialState with
      recipe := "Preheat oven to 350 degrees"
      isPaused := true
      ttsSettings := { rate := 2, pitch := 1, volume := 1, voice := "" }
      currentUtterance := some
        { text := "Preheat oven to 350 degrees", rate := 1, pitch := 1,
          volume := 1, voice := none } }

theorem startSpeech_paused_resumes_witness :
    pausedState.isPaused = true ∧
    pausedState.currentUtterance = some
      { text := "Preheat oven to 350 degrees", rate := 1, pitch := 1,
        volume := 1, voice := none } ∧
    jsTrim pausedState.recipe ≠ "" ∧
    (startSpeech pausedState =
        (none, {pausedState with isPaused := false, isPlaying := true},
         [.resume]) ∧
      (startSpeech pausedState).2.1.currentUtterance = some
        { text := "Preheat oven to 350 degrees", rate := 1, pitch := 1,
          volume := 1, voice := none } ∧
      (startSpeech pausedState).2.1.isPlaying = true ∧
      (startSpeech pausedState).2.1.isPaused = false) :=
  ⟨rfl, rfl, by decide,
   startSpeech_paused_resumes pausedState _ rfl rfl (by decide)⟩

/-- C7: `pauseSpeech` from any state where `isPlaying` is false (both
`Idle` and `Paused`) changes nothing and calls nothing; `stopSpeech` from
every state yields `Idle` with both flags cleared and the active
utterance reference cleared. -/
theorem pause_noop_stop_idle (s : AppState) (h : s.isPlaying = false) :
    pauseSpeech s = (s, []) ∧
    (∀ t : AppState,
      (stopSpeech t).1.isPlaying = false ∧
      (stopSpeech t).1.isPaused = false ∧
      (stopSpeech t).1.currentUtterance = none) := by
  exact ⟨by simp [pauseSpeech, h], fun t => ⟨rfl, rfl, rfl⟩⟩

theorem pause_noop_stop_idle_witness :
    initialState.isPlaying = false ∧
    (pauseSpeech initialState = (initialState, []) ∧
      (∀ t : AppState,
        (stopSpeech t).1.isPlaying = false ∧
        (stopSpeech t).1.isPaused = false ∧
        (stopSpeech t).1.currentUtterance = none)) :=
  ⟨rfl, pause_noop_stop_idle initialState rfl⟩

/-- A state whose voice was already chosen (by the user or by an earlier
seeding). -/
def chosenVoiceState : AppState :=
  { initialState with
      ttsSettings := { rate := 1, pitch := 1, volume := 1, voice := "VoiceB" } }

/-- C8: the claim fails on the code.  The `loadVoices` closure (installed
once as the `onvoiceschanged` handler) captured the first render's
settings, whose `voice` is `""`, so its guard `!ttsSettings.voice` is
always true: a catalog refresh overwrites an already-chosen voice
(here `"VoiceB"`) with the first catalog entry (`"VoiceA"`) instead of
leaving it alone. -/
theorem loadVoices_overrides_chosen_voice :
    chosenVoiceState.ttsSettings.voice = "VoiceB" ∧
    (appLoadVoices [{ name := "VoiceA", lang := "en-US" }]
        chosenVoiceState).ttsSettings.voice = "VoiceA" :=
  ⟨rfl, rfl⟩

/-- C9: each of the four preference setters immediately persists the full
updated record, so a store read right after the setter returns the new
record and a fresh Preferences Manager initialized from that store reads
back exactly the same record. -/
theorem setters_write_through (x y z : Rat) (v : String) (t : TTSSettings)
    (store : Store) :
    ((applySetter (setRate x) t store).2.ttsSettings =
        StoredSettings.valid (setRate x t) ∧
      initSettings (applySetter (setRate x) t store).2 = .ok (setRate x t)) ∧
    ((applySetter (setPitch y) t store).2.ttsSettings =
        StoredSettings.valid (setPitch y t) ∧
      initSettings (applySetter (setPitch y) t store).2 = .ok (setPitch y t)) ∧
    ((applySetter (setVolume z) t store).2.ttsSettings =
        StoredSettings.valid (setVolume z t) ∧
      initSettings (applySetter (setVolume z) t store).2 =
        .ok (setVolume z t)) ∧
    ((applySetter (setVoice v) t store).2.ttsSettings =
        StoredSettings.valid (setVoice v t) ∧
      initSettings (applySetter (setVoice v) t store).2 = .ok (setVoice v t)) :=
  ⟨⟨rfl, rfl⟩, ⟨rfl, rfl⟩, ⟨rfl, rfl⟩, ⟨rfl, rfl⟩⟩

/-- A library already holding a recipe whose id is the string `"5"`,
with non-blank editor fields. -/
def collisionState : AppState :=
  { initialState with
      recipeTitle := "Apple pie"
      recipe := "Mix and bake"
      savedRecipes := [{ id := "5", title := "Old", content := "Old content",
                         createdAt := "2020-01-01T00:00:00.000Z" }] }

/-- A clock whose `Date.now()` reading collides with the stored id. -/
def collisionClock : Clock :=
  { nowMs := 5, nowISO := "2026-10-11T00:00:00.000Z" }

/-- C3 counterexample: the id is `Date.now().toString()`, so a save whose
millisecond timestamp equals an existing entry's id succeeds and produces
a collection with two entries sharing id `"5"` — the new id is not unique
across the library. -/
theorem saveRecipe_id_collision :
    (saveRecipe collisionClock collisionState corruptSettingsStore).1 =
      none ∧
    ((saveRecipe collisionClock collisionState
          corruptSettingsStore).2.1.savedRecipes.filter
        (fun r => r.id == "5")).length = 2 := by
  constructor
  · decide
  · decide

/-- C3 (amended): for non-blank title and content, save creates a new
recipe whose id is `Date.now()` rendered as a string and whose
`createdAt` is the current ISO timestamp, appends it to the collection
preserving insertion order, persists the full updated collection, and the
new entry is the returned tail; provided no existing entry already
carries that timestamp-derived id (saves in distinct milliseconds), the
id is unique across the library, and the updated list contains exactly
one more entry with that title and content than before. -/
theorem saveRecipe_fresh_append_persist (clock : Clock) (s : AppState)
    (store : Store)
    (ht : jsTrim s.recipeTitle ≠ "") (hc : jsTrim s.recipe ≠ "")
    (hfresh : ∀ r ∈ s.savedRecipes, r.id ≠ toString clock.nowMs) :
    ∃ newR : Recipe,
      newR.id = toString clock.nowMs ∧
      newR.title = s.recipeTitle ∧
      newR.content = s.recipe ∧
      newR.createdAt = clock.nowISO ∧
      saveRecipe clock s store =
        (none, {s with savedRecipes := s.savedRecipes ++ [newR]},
         {store with savedRecipes := .valid (s.savedRecipes ++ [newR])}) ∧
      (s.savedRecipes ++ [newR]).filter (fun r => r.id == newR.id) =
        [newR] ∧
      ((s.savedRecipes ++ [newR]).filter
          (fun r => r.title == s.recipeTitle && r.content == s.recipe)).length =
        (s.savedRecipes.filter
          (fun r => r.title == s.recipeTitle &&
            r.content == s.recipe)).length + 1 := by
  refine ⟨{ id := toString clock.nowMs, title := s.recipeTitle,
            content := s.recipe, createdAt := clock.nowISO },
          rfl, rfl, rfl, rfl, ?_, ?_, ?_⟩
  · simp [saveRecipe, ht, hc]
  · rw [List.filter_append]
    have h1 : s.savedRecipes.filter
        (fun r => r.id == toString clock.nowMs) = [] := by
      rw [List.filter_eq_nil_iff]
      intro r hr
      simp [hfresh r hr]
    simp [h1]
  · rw [List.filter_append, List.length_append]
    simp

/-- Non-blank editor fields over the empty library. -/
def freshSaveState : AppState :=
  { initialState with recipeTitle := "Soup", recipe := "Boil water" }

/-- The clock for the fresh-save witness. -/
def freshSaveClock : Clock :=
  { nowMs := 7, nowISO := "2026-10-11T12:00:00.000Z" }

theorem saveRecipe_fresh_append_persist_witness :
    jsTrim freshSaveState.recipeTitle ≠ "" ∧
    jsTrim freshSaveState.recipe ≠ "" ∧
    (∀ r ∈ freshSaveState.savedRecipes, r.id ≠ toString freshSaveClock.nowMs) ∧
    (∃ newR : Recipe,
      newR.id = toString freshSaveClock.nowMs ∧
      newR.title = freshSaveState.recipeTitle ∧
      newR.content = freshSaveState.recipe ∧
      newR.createdAt = freshSaveClock.nowISO ∧
      saveRecipe freshSaveClock freshSaveState corruptRecipesStore =
        (none,
         {freshSaveState with
            savedRecipes := freshSaveState.savedRecipes ++ [newR]},
         {corruptRecipesStore with
            savedRecipes := .valid (freshSaveState.savedRecipes ++ [newR])}) ∧
      (freshSaveState.savedRecipes ++ [newR]).filter
          (fun r => r.id == newR.id) = [newR] ∧
      ((freshSaveState.savedRecipes ++ [newR]).filter
          (fun r => r.title == freshSaveState.recipeTitle &&
            r.content == freshSaveState.recipe)).length =
        (freshSaveState.savedRecipes.filter
          (fun r => r.title == freshSaveState.recipeTitle &&
            r.content == freshSaveState.recipe)).length + 1) :=
  ⟨by decide, by decide,
   fun r hr => absurd hr (List.not_mem_nil r),
   saveRecipe_fresh_append_persist freshSaveClock freshSaveState
     corruptRecipesStore (by decide) (by decide)
     (fun r hr => absurd hr (List.not_mem_nil r))⟩

/-- Preservation of the flag exclusion by every event handler. -/
theorem flagsOK_step (s : AppState) (e : Event) (h : flagsOK s) :
    flagsOK (step s e) := by
  cases e with
  | setRecipeText t => exact h
  | setTitleText t => exact h
  | userStart =>
      simp only [step, startSpeech]
      split
      · exact h
      · split
        · exact Or.inr rfl
        · exact h
  | userPause =>
      simp only [step, pauseSpeech]
      split
      · exact Or.inl rfl
      · exact h
  | userStop => exact Or.inl rfl
  | engOnStart => exact Or.inr rfl
  | engOnEnd => exact Or.inl rfl
  | engOnError => exact Or.inl rfl
  | voicesChanged vs =>
      simp only [step, appLoadVoices, loadVoices]
      cases vs with
      | nil => exact h
      | cons v rest =>
          split
          · exact h
          · exact h

/-- Every reachable state satisfies the flag exclusion. -/
theorem flagsOK_run (es : List Event) : flagsOK (run es) := by
  suffices h : ∀ (l : List Event) (s : AppState),
      flagsOK s → flagsOK (l.foldl step s) by
    exact h es initialState (Or.inl rfl)
  intro l
  induction l with
  | nil => exact fun s h => h
  | cons e rest ih => exact fun s h => ih (step s e) (flagsOK_step s e h)

/-- C10: in every state reachable from the first render by any sequence
of events (editor edits, the start/pause/stop handlers, the engine
`onstart`/`onend`/`onerror` callbacks, catalog refreshes), the flags
`isPlaying` and `isPaused` are never both true: the pair always encodes
exactly one of `Idle` (false, false), `Playing` (true, false), or
`Paused` (false, true). -/
theorem flags_encode_three_states (es : List Event) :
    ((run es).isPlaying = false ∧ (run es).isPaused = false) ∨
    ((run es).isPlaying = true ∧ (run es).isPaused = false) ∨
    ((run es).isPlaying = false ∧ (run es).isPaused = true) := by
  rcases flagsOK_run es with h | h
  · cases hq : (run es).isPaused
    · exact Or.inl ⟨h, rfl⟩
    · exact Or.inr (Or.inr ⟨h, rfl⟩)
  · cases hp : (run es).isPlaying
    · exact Or.inl ⟨rfl, h⟩
    · exact Or.inr (Or.inl ⟨rfl, h⟩)

end RecipeReader
